import Mathlib

/-!
Verification of the distributed dispatch and backpressure-streaming layer of
the llama web server (web.py): the command the leader (rank 0) broadcasts to
follower ranks, the SSE and WebSocket token streaming loops, the backpressure
accounting of the WebSocket session, the follower receive loop, and the
cooperative scheduling of concurrent leader handlers.
-/

namespace LlamaWeb

/-- One emission of the Generation Engine, as produced by
generator.probs_stream in web.py: token id, decoded word, probability,
place among candidates, and top-5 alternatives. Probabilities are modelled
as rationals; no claim depends on floating-point rounding. -/
structure TokenEvent where
  token : Int
  word : String
  probability : Rat
  place : Nat
  top5 : List (String × Rat)
deriving DecidableEq

/-- Rendering of the top-5 alternatives list inside the JSON frame. -/
def top5Json (l : List (String × Rat)) : String :=
  "[" ++ (String.intercalate ", "
    (l.map (fun p => "[\"" ++ (p.1 ++ ("\", " ++ (toString p.2 ++ "]")))))
    ++ "]")

/-- Embeds the json.dumps call of web.py lines 127 and 150, which serializes
one token event into the JSON object with keys token, word, probability,
place and top5, in that order. Number formatting is abstracted by toString;
the claims only use that each frame is determined by its event and, being a
JSON object, starts with an opening brace so it is never the sentinel. -/
def jsonDumps (e : TokenEvent) : String :=
  "\x7b" ++ ("\"token\": " ++ (toString e.token ++ (", \"word\": \"" ++
    (e.word ++ ("\", \"probability\": " ++ (toString e.probability ++
    (", \"place\": " ++ (toString e.place ++ (", \"top5\": " ++
    (top5Json e.top5 ++ "\x7d"))))))))))

/-- A serialized token frame is never the end-of-stream sentinel: it starts
with an opening brace while the sentinel starts with an angle bracket. -/
theorem jsonDumps_ne_eos (e : TokenEvent) : jsonDumps e ≠ "<EOS>" := by
  intro h
  have hd : (jsonDumps e).data.head? = some '\x7b' := by
    rw [jsonDumps, String.data_append]
    rfl
  rw [h] at hd
  exact absurd hd (by decide)

/-- Output of one Generation Engine call on the leader, seen as the lazy
stream the handlers iterate: the token events actually produced and, when
the underlying iterator raises instead of finishing, the failure raised
after that produced prefix. -/
structure EngineOut where
  events : List TokenEvent
  failure : Option String
deriving DecidableEq

/-- Embeds the generate_stream async generator of the SSE handler (web.py
lines 121-131): one data frame per token event in generation order, then
the single sentinel data frame. The handler body has no try/except, so when
the engine raises, the loop aborts before the sentinel and the failure
propagates out of the handler. The result is the list of frame payloads
emitted and the handler outcome. -/
def generate_stream (out : EngineOut) : List String × Except String Unit :=
  match out.failure with
  | none => (out.events.map jsonDumps ++ ["<EOS>"], Except.ok ())
  | some err => (out.events.map jsonDumps, Except.error err)

/-- One observable step of the WebSocket handler, annotated with the values
of the send_tokens and recv_tokens counters right after the statement that
produced it: a token frame sent (counters after the send_tokens increment),
an acknowledgment frame read (counters after the recv_tokens increment), or
the final socket close. -/
inductive WSEvt where
  | send : String → Nat → Nat → WSEvt
  | recvAck : Nat → Nat → WSEvt
  | close : WSEvt
deriving DecidableEq

/-- Embeds the inner while loop of the WebSocket handler (web.py lines
154-156): while recv_tokens is below send_tokens - 10, read one
acknowledgment frame and increment recv_tokens. Returns the acknowledgment
steps performed and the final recv_tokens value. Natural subtraction agrees
with the Python comparison because recv_tokens is never negative. -/
def ackRun (send recv : Nat) : List WSEvt × Nat :=
  if h : recv < send - 10 then
    (WSEvt.recvAck send (recv + 1) :: (ackRun send (recv + 1)).1,
      (ackRun send (recv + 1)).2)
  else
    ([], recv)
termination_by send - recv
decreasing_by all_goals omega

/-- Embeds the for loop of the WebSocket handler (web.py lines 146-158)
over the engine output: per event, send its JSON frame, increment
send_tokens, then run the acknowledgment-reading while loop. -/
def wsLoop : List TokenEvent → Nat → Nat → List WSEvt
  | [], _, _ => []
  | e :: rest, send, recv =>
    WSEvt.send (jsonDumps e) (send + 1) recv ::
      ((ackRun (send + 1) recv).1 ++ wsLoop rest (send + 1) (ackRun (send + 1) recv).2)

/-- Embeds the generate_ws WebSocket handler body after the broadcast
(web.py lines 142-160): counters start at zero, the loop streams the engine
output, and on normal completion the socket is closed. The handler has no
try/except, so an engine failure aborts the session before the close and
propagates out of the handler. -/
def generate_ws (out : EngineOut) : List WSEvt × Except String Unit :=
  match out.failure with
  | none => (wsLoop out.events 0 0 ++ [WSEvt.close], Except.ok ())
  | some err => (wsLoop out.events 0 0, Except.error err)

/-- Trace of a failure-free WebSocket session over the given engine events. -/
def wsFull (events : List TokenEvent) : List WSEvt :=
  (generate_ws ⟨events, none⟩).1

/-- Frames sent to the client, in order, extracted from a session trace. -/
def sentFrames (tr : List WSEvt) : List String :=
  tr.filterMap fun evt =>
    match evt with
    | WSEvt.send f _ _ => some f
    | _ => none

/-- The send_tokens annotation of a step (zero for the close step). -/
def sendAnn : WSEvt → Nat
  | WSEvt.send _ s _ => s
  | WSEvt.recvAck s _ => s
  | WSEvt.close => 0

/-- The recv_tokens annotation of a step (zero for the close step). -/
def recvAnn : WSEvt → Nat
  | WSEvt.send _ _ r => r
  | WSEvt.recvAck _ r => r
  | WSEvt.close => 0

/-- The backpressure gap send_tokens - recv_tokens at a step. -/
def wsGap (evt : WSEvt) : Nat := sendAnn evt - recvAnn evt

/-- Whether a step is an acknowledgment read. -/
def isAck : WSEvt → Bool
  | WSEvt.recvAck _ _ => true
  | _ => false

/-- Specification-side shape of a WebSocket trace in which the
acknowledgment loop never fires: one send per event, recv_tokens pinned at
its initial value. Compared with the wsLoop trace in the theorems. -/
def sendsOnly : List TokenEvent → Nat → Nat → List WSEvt
  | [], _, _ => []
  | e :: rest, send, recv =>
    WSEvt.send (jsonDumps e) (send + 1) recv :: sendsOnly rest (send + 1) recv

/-- Characterization of the acknowledgment loop: its final recv_tokens is
the maximum of the entry value and send_tokens - 10, and every step it
performs is an acknowledgment read at the current send_tokens whose updated
recv_tokens lies strictly above the entry value and at most
send_tokens - 10. -/
theorem ackRun_spec (send recv : Nat) :
    (ackRun send recv).2 = max recv (send - 10) ∧
    ∀ evt ∈ (ackRun send recv).1,
      ∃ r, evt = WSEvt.recvAck send r ∧ recv < r ∧ r ≤ send - 10 := by
  rw [ackRun]
  split
  next h =>
    obtain ⟨ih1, ih2⟩ := ackRun_spec send (recv + 1)
    refine ⟨by rw [ih1]; omega, ?_⟩
    intro evt hm
    rcases List.mem_cons.mp hm with hhd | htl
    · exact ⟨recv + 1, hhd, by omega, by omega⟩
    · obtain ⟨r, he, hlt, hle⟩ := ih2 evt htl
      exact ⟨r, he, by omega, hle⟩
  next h =>
    exact ⟨by omega, fun evt hm => absurd hm (List.not_mem_nil evt)⟩
termination_by send - recv
decreasing_by all_goals omega

/-- Equation of the acknowledgment loop when the gap condition fails: no
acknowledgment is read and recv_tokens is unchanged. -/
theorem ackRun_nil (send recv : Nat) (h : ¬ recv < send - 10) :
    ackRun send recv = ([], recv) := by
  rw [ackRun, dif_neg h]

/-- Equation of the acknowledgment loop when the gap condition holds: one
acknowledgment is read and the loop re-tests. -/
theorem ackRun_step (send recv : Nat) (h : recv < send - 10) :
    ackRun send recv
      = (WSEvt.recvAck send (recv + 1) :: (ackRun send (recv + 1)).1,
        (ackRun send (recv + 1)).2) := by
  rw [ackRun]
  rw [dif_pos h]

/-- The frames sent during the WebSocket loop are exactly the serialized
engine events, in generation order, for any entry counters. -/
theorem wsLoop_sentFrames (events : List TokenEvent) :
    ∀ send recv, sentFrames (wsLoop events send recv) = events.map jsonDumps := by
  induction events with
  | nil => intro send recv; rfl
  | cons e rest ih =>
    intro send recv
    have hacks : sentFrames (ackRun (send + 1) recv).1 = [] := by
      rw [sentFrames, List.filterMap_eq_nil_iff]
      intro evt hm
      obtain ⟨r, he, _, _⟩ := (ackRun_spec (send + 1) recv).2 evt hm
      subst he; rfl
    rw [sentFrames] at hacks ⊢
    simp only [wsLoop, List.filterMap_cons, List.filterMap_append, hacks]
    simpa using ih (send + 1) (ackRun (send + 1) recv).2

/-- The WebSocket loop itself never closes the socket: the close step is
issued only after the loop, on normal completion. -/
theorem close_not_mem_wsLoop (events : List TokenEvent) :
    ∀ send recv, WSEvt.close ∉ wsLoop events send recv := by
  induction events with
  | nil => intro send recv h; exact List.not_mem_nil _ h
  | cons e rest ih =>
    intro send recv h
    rcases List.mem_cons.mp h with h1 | h2
    · exact WSEvt.noConfusion h1
    · rcases List.mem_append.mp h2 with h3 | h4
      · obtain ⟨r, he, _, _⟩ := (ackRun_spec (send + 1) recv).2 _ h3
        exact WSEvt.noConfusion he
      · exact ih _ _ h4

/-- Counter invariant of the WebSocket loop: starting from counters with
recv_tokens ≤ send_tokens ≤ recv_tokens + 10, every step of the trace has
recv_tokens ≤ send_tokens, a gap of at most 11, and a gap of at most 10 at
every acknowledgment step. -/
theorem wsLoop_counters (events : List TokenEvent) :
    ∀ send recv, recv ≤ send → send ≤ recv + 10 →
      ∀ evt ∈ wsLoop events send recv,
        recvAnn evt ≤ sendAnn evt ∧ sendAnn evt ≤ recvAnn evt + 11 ∧
        (isAck evt = true → sendAnn evt ≤ recvAnn evt + 10) := by
  induction events with
  | nil => intro send recv _ _ evt h; exact absurd h (List.not_mem_nil evt)
  | cons e rest ih =>
    intro send recv h1 h2 evt hm
    rcases List.mem_cons.mp hm with hhd | htl
    · subst hhd
      simp only [sendAnn, recvAnn, isAck, Bool.false_eq_true, false_implies, and_true]
      omega
    · rcases List.mem_append.mp htl with hack | hrest
      · obtain ⟨r, he, hlt, hle⟩ := (ackRun_spec (send + 1) recv).2 evt hack
        subst he
        simp only [sendAnn, recvAnn, isAck, true_implies]
        omega
      · have hfin : (ackRun (send + 1) recv).2 = max recv (send + 1 - 10) :=
          (ackRun_spec _ _).1
        rw [hfin] at hrest
        exact ih (send + 1) (max recv (send + 1 - 10)) (by omega) (by omega) evt hrest

/-- Acknowledgment frames are read only once send_tokens has reached 11,
that is, only after more than ten token frames have been sent. -/
theorem wsLoop_ack_eleven (events : List TokenEvent) :
    ∀ send recv s r, WSEvt.recvAck s r ∈ wsLoop events send recv → 11 ≤ s := by
  induction events with
  | nil => intro _ _ _ _ h; exact absurd h (List.not_mem_nil _)
  | cons e rest ih =>
    intro send recv s r hm
    rcases List.mem_cons.mp hm with hhd | htl
    · exact WSEvt.noConfusion hhd
    · rcases List.mem_append.mp htl with hack | hrest
      · obtain ⟨r', he, hlt, hle⟩ := (ackRun_spec (send + 1) recv).2 _ hack
        injection he with hs hr
        omega
      · exact ih _ _ _ _ hrest

/-- When at most ten sends can ever happen, the acknowledgment loop never
fires and the WebSocket loop degenerates to plain sends with recv_tokens
pinned at its entry value. -/
theorem wsLoop_small (events : List TokenEvent) :
    ∀ send recv, send + events.length ≤ 10 →
      wsLoop events send recv = sendsOnly events send recv := by
  induction events with
  | nil => intro send recv _; rfl
  | cons e rest ih =>
    intro send recv h
    have h' : send + 1 + rest.length ≤ 10 := by
      simp only [List.length_cons] at h
      omega
    have hnil : ackRun (send + 1) recv = ([], recv) := by
      rw [ackRun, dif_neg (by omega)]
    simp only [wsLoop, sendsOnly, hnil, List.nil_append]
    exact congrArg _ (ih (send + 1) recv (by omega))

/-- The wire value of one generation command: the ordered 4-tuple
[prompt, max_gen_len, temperature, top_p] passed to
dist.broadcast_object_list. Temperature and top_p are modelled as
rationals; the claims compare the literal values only. -/
abbrev BTuple := String × Nat × Rat × Rat

/-- Arguments of one Generation Engine call: prompt, max_gen_len,
temperature and top_p, as passed to generator.probs_stream on the leader
and to generator.generate on a follower. -/
structure EngineCall where
  prompt : String
  max_gen_len : Nat
  temperature : Rat
  top_p : Rat
deriving DecidableEq

/-- A client request to the POST handler. The code reads only the text key
of the JSON body (web.py line 119); the remaining fields model any other
generation parameters a client may include in the body, which the handler
never reads. -/
structure ClientRequest where
  text : String
  max_gen_len : Option Nat
  temperature : Option Rat
  top_p : Option Rat
deriving DecidableEq

/-- The Config pydantic request model declared in web.py lines 110-114.
It is declared with defaults temperature 0.8 and top_p 0.95, but neither
handler refers to it: both pass the literals 100028, 0.7 and 1 instead. -/
structure Config where
  prompts : List String
  max_gen_len : Nat
  temperature : Rat := 8 / 10
  top_p : Rat := 95 / 100
deriving DecidableEq

/-- The tuple the POST handler broadcasts (web.py line 120):
[text, 100028, 0.7, 1]. -/
def generateBroadcast (req : ClientRequest) : BTuple :=
  (req.text, 100028, 7 / 10, 1)

/-- The arguments of the POST handler local engine call (web.py lines
123-125): generator.probs_stream(text, max_gen_len=100028,
temperature=0.7, top_p=1). -/
def generateEngineArgs (req : ClientRequest) : EngineCall :=
  ⟨req.text, 100028, 7 / 10, 1⟩

/-- The tuple the WebSocket handler broadcasts (web.py line 140):
[text, 100028, 0.7, 1], where text is the first frame received. -/
def generateWsBroadcast (text : String) : BTuple :=
  (text, 100028, 7 / 10, 1)

/-- The arguments of the WebSocket handler local engine call (web.py lines
146-148). -/
def generateWsEngineArgs (text : String) : EngineCall :=
  ⟨text, 100028, 7 / 10, 1⟩

/-- The Broadcast Channel, an external collaborator: per spec section 2,
every rank receives exactly the value rank 0 sent, so the transfer is the
identity on the broadcast tuple. -/
def Broadcast (cmd : BTuple) : BTuple := cmd

/-- The engine call a follower makes from a received broadcast tuple
(web.py lines 168-170): generator.generate(config[0], max_gen_len=config[1],
temperature=config[2], top_p=config[3]), unpacking the tuple positionally. -/
def followerEngineCall (config : BTuple) : EngineCall :=
  ⟨config.1, config.2.1, config.2.2.1, config.2.2.2⟩

/-- Outcome of the broadcast step at the start of a leader handler: the
handler body has no try/except, so a Broadcast Channel failure propagates
out of the handler and the round is never started; otherwise the broadcast
tuple and the local engine call are produced. -/
def leaderDispatch (req : ClientRequest) (bErr : Option String) :
    Except String (BTuple × EngineCall) :=
  match bErr with
  | some err => Except.error err
  | none => Except.ok (generateBroadcast req, generateEngineArgs req)

/-- What one iteration of the follower loop (web.py lines 164-172) is given
to react to: the broadcast receive raises, or the broadcast delivers a
command tuple after which the engine call raises, or the round succeeds. -/
inductive FollowerRound where
  | broadcastErr : String → FollowerRound
  | engineErr : BTuple → String → FollowerRound
  | success : BTuple → FollowerRound
deriving DecidableEq

/-- Observable outcome of one follower loop iteration: the engine call made
(if the broadcast succeeded), the log records produced, and whether the
loop proceeds to its next iteration. -/
structure FollowerOutcome where
  engineCall : Option EngineCall
  log : List String
  continues : Bool
deriving DecidableEq

/-- Embeds one iteration of the follower while True loop (web.py lines
164-172): the broadcast receive and the engine call are wrapped in a bare
try with except: pass, so every failure is discarded with no record and the
loop always re-enters its broadcast wait. -/
def followerIteration : FollowerRound → FollowerOutcome
  | FollowerRound.broadcastErr _ => ⟨none, [], true⟩
  | FollowerRound.engineErr cmd _ => ⟨some (followerEngineCall cmd), [], true⟩
  | FollowerRound.success cmd => ⟨some (followerEngineCall cmd), [], true⟩

/-- Atomic scheduler steps of a leader handler task serving one connection,
for round identifier rid: the synchronous broadcast call (web.py lines 120
and 140, not an await point, so never interleaved internally) and the
emission of one token frame. Between consecutive steps the handler awaits
(send_text, receive_text or asyncio.sleep(0)), so the cooperative scheduler
may run another connection task there (spec section 5). -/
inductive Act where
  | broadcastCmd : Nat → Act
  | emit : Nat → Nat → Act
deriving DecidableEq

/-- The step sequence of one leader handler task: broadcast its command,
then emit its round tokens in order, one per scheduler slot. -/
def taskScript (rid : Nat) (ntok : Nat) : List Act :=
  Act.broadcastCmd rid :: (List.range ntok).map (Act.emit rid)

/-- Interleavings of two step sequences: exactly the schedules a
cooperative scheduler can produce for two concurrent connection tasks,
since the code takes no lock around the broadcast or the streaming loop. -/
inductive Interleave : List Act → List Act → List Act → Prop where
  | nil : Interleave [] [] []
  | cons_left : ∀ {x xs ys zs}, Interleave xs ys zs → Interleave (x :: xs) ys (x :: zs)
  | cons_right : ∀ {x xs ys zs}, Interleave xs ys zs → Interleave xs (x :: ys) (x :: zs)

/-- Two generation rounds are in flight at once in a schedule: a second
command is broadcast after a first one while the first round still has a
token emission pending. -/
def RoundsOverlap (t : List Act) : Prop :=
  ∃ i j k r r' m, i < j ∧ j < k ∧
    t.get? i = some (Act.broadcastCmd r) ∧
    t.get? j = some (Act.broadcastCmd r') ∧
    t.get? k = some (Act.emit r m) ∧ r ≠ r'

/-- A concrete schedule of two connection tasks: connection 1 broadcasts
and emits one token, is suspended at its await, connection 2 broadcasts and
emits, then connection 1 resumes. -/
def overlapTrace : List Act :=
  [Act.broadcastCmd 1, Act.emit 1 0, Act.broadcastCmd 2,
    Act.emit 2 0, Act.emit 1 1]

/-- A concrete token event used to instantiate theorems with hypotheses. -/
def exampleEvent : TokenEvent :=
  ⟨42, "He", 9 / 10, 0, [("He", 9 / 10)]⟩

/-- C1: for every client request, on both transports, the engine call a
follower builds by positionally unpacking the received broadcast tuple is
field-for-field identical to the leader local engine call: equal prompt,
max_gen_len, temperature and top_p on every rank. -/
theorem command_roundtrip (req : ClientRequest) (text : String) :
    followerEngineCall (Broadcast (generateBroadcast req)) = generateEngineArgs req ∧
    followerEngineCall (Broadcast (generateWsBroadcast text)) = generateWsEngineArgs text :=
  ⟨rfl, rfl⟩

/-- C9: the generation parameters broadcast and passed to the engine are
the fixed constants max_gen_len 100028, temperature 0.7 and top_p 1 on both
transports; two requests that agree on their text produce identical
broadcasts and engine calls no matter what other parameters the client
sent, so the client controls only the prompt and the declared Config model
(with its different defaults) is never consulted. -/
theorem fixed_generation_constants (req req' : ClientRequest)
    (h : req.text = req'.text) :
    generateBroadcast req = generateBroadcast req' ∧
    generateEngineArgs req = generateEngineArgs req' ∧
    generateBroadcast req = (req.text, 100028, 7 / 10, 1) ∧
    generateEngineArgs req = ⟨req.text, 100028, 7 / 10, 1⟩ ∧
    (∀ text, generateWsBroadcast text = (text, 100028, 7 / 10, 1) ∧
      generateWsEngineArgs text = ⟨text, 100028, 7 / 10, 1⟩) := by
  refine ⟨?_, ?_, rfl, rfl, fun text => ⟨rfl, rfl⟩⟩ <;>
    simp [generateBroadcast, generateEngineArgs, h]

/-- Witness for fixed_generation_constants: two concrete requests with the
same text but different client-side parameters dispatch identically. -/
theorem fixed_generation_constants_witness :
    ((⟨"Hello", some 3, some (1 / 2), some (1 / 2)⟩ : ClientRequest).text =
      (⟨"Hello", none, none, none⟩ : ClientRequest).text) ∧
    generateBroadcast (⟨"Hello", some 3, some (1 / 2), some (1 / 2)⟩ : ClientRequest) =
      generateBroadcast (⟨"Hello", none, none, none⟩ : ClientRequest) :=
  ⟨rfl, (fixed_generation_constants
    (⟨"Hello", some 3, some (1 / 2), some (1 / 2)⟩ : ClientRequest)
    (⟨"Hello", none, none, none⟩ : ClientRequest) rfl).1⟩

/-- C5: on the SSE transport, for every engine output that completes, the
sentinel frame appears exactly once in the emitted frames, as the last
frame, with all token frames before it. -/
theorem sse_sentinel_once (events : List TokenEvent) :
    ((generate_stream ⟨events, none⟩).1).count "<EOS>" = 1 ∧
    ((generate_stream ⟨events, none⟩).1).getLast? = some "<EOS>" ∧
    ((generate_stream ⟨events, none⟩).1).dropLast = events.map jsonDumps := by
  have hframes : (generate_stream ⟨events, none⟩).1
      = events.map jsonDumps ++ ["<EOS>"] := rfl
  rw [hframes]
  refine ⟨?_, List.getLast?_concat _, by simp⟩
  rw [List.count_append]
  have hzero : (events.map jsonDumps).count "<EOS>" = 0 := by
    rw [List.count_eq_zero]
    intro hmem
    obtain ⟨e, _, he⟩ := List.mem_map.mp hmem
    exact jsonDumps_ne_eos e he
  rw [hzero]
  rfl

/-- C6: for every non-empty engine output, the token frames delivered to
the client are exactly the serialized events in generation order, on both
the SSE transport (all frames before the sentinel) and the WebSocket
transport (all frames sent before the close): same length, same order, no
drops, no duplicates beyond those of the engine output itself. -/
theorem token_frames_preserve_order (events : List TokenEvent)
    (h : events ≠ []) :
    ((generate_stream ⟨events, none⟩).1).dropLast = events.map jsonDumps ∧
    sentFrames (wsFull events) = events.map jsonDumps := by
  constructor
  · have hframes : (generate_stream ⟨events, none⟩).1
        = events.map jsonDumps ++ ["<EOS>"] := rfl
    rw [hframes]
    simp
  · have hfull : wsFull events = wsLoop events 0 0 ++ [WSEvt.close] := rfl
    have hclose : sentFrames [WSEvt.close] = [] := rfl
    rw [hfull, sentFrames, List.filterMap_append]
    rw [sentFrames] at hclose
    rw [hclose, List.append_nil]
    have hsends := wsLoop_sentFrames events 0 0
    rw [sentFrames] at hsends
    exact hsends

/-- Witness for token_frames_preserve_order at a concrete one-event
output. -/
theorem token_frames_preserve_order_witness :
    (([exampleEvent] : List TokenEvent) ≠ []) ∧
    sentFrames (wsFull [exampleEvent]) = [exampleEvent].map jsonDumps :=
  ⟨by decide, (token_frames_preserve_order [exampleEvent] (by decide)).2⟩

/-- C7: when the engine raises on the leader after producing any prefix of
events, both handlers propagate the failure (neither has a try/except): the
handler outcome is the error, the SSE stream never emits its sentinel and
the WebSocket session never reaches its close, so the client observes an
aborted stream. -/
theorem leader_engine_failure_propagates (events : List TokenEvent)
    (err : String) :
    (generate_stream ⟨events, some err⟩).2 = Except.error err ∧
    (generate_ws ⟨events, some err⟩).2 = Except.error err ∧
    "<EOS>" ∉ (generate_stream ⟨events, some err⟩).1 ∧
    WSEvt.close ∉ (generate_ws ⟨events, some err⟩).1 := by
  refine ⟨rfl, rfl, ?_, ?_⟩
  · have hframes : (generate_stream ⟨events, some err⟩).1
        = events.map jsonDumps := rfl
    rw [hframes]
    intro hmem
    obtain ⟨e, _, he⟩ := List.mem_map.mp hmem
    exact jsonDumps_ne_eos e he
  · have htr : (generate_ws ⟨events, some err⟩).1 = wsLoop events 0 0 := rfl
    rw [htr]
    exact close_not_mem_wsLoop events 0 0

/-- Witness for leader_engine_failure_propagates at a concrete failing
engine output. -/
theorem leader_engine_failure_propagates_witness :
    (generate_stream ⟨[exampleEvent], some "CUDA out of memory"⟩).2
      = Except.error "CUDA out of memory" ∧
    (generate_ws ⟨[exampleEvent], some "CUDA out of memory"⟩).2
      = Except.error "CUDA out of memory" ∧
    "<EOS>" ∉ (generate_stream ⟨[exampleEvent], some "CUDA out of memory"⟩).1 ∧
    WSEvt.close ∉ (generate_ws ⟨[exampleEvent], some "CUDA out of memory"⟩).1 :=
  leader_engine_failure_propagates [exampleEvent] "CUDA out of memory"

/-- C2, counterexample to the claim as stated: with an engine output of 11
tokens, the WebSocket session reaches a point (right after the eleventh
send_tokens increment, before any acknowledgment is read) where
send_tokens - recv_tokens is 11, exceeding max_unacked 10. -/
theorem ws_gap_exceeds_claimed_bound :
    ∃ g ∈ (wsFull (List.replicate 11 exampleEvent)).map wsGap, 10 < g := by
  simp only [wsFull, generate_ws, List.replicate, wsLoop, ackRun_nil, ackRun_step,
    Nat.reduceAdd, Nat.reduceSub, Nat.lt_irrefl, not_false_iff]
  decide

/-- C2 as amended: at every point of a WebSocket session the gap
send_tokens - recv_tokens is at most 11 (the bound 10 can be exceeded only
by the single frame just sent), and after each acknowledgment is processed
the gap is back within the bound 10, so emission is suspended until the gap
returns within max_unacked before the next send. -/
theorem ws_gap_bound (events : List TokenEvent) (evt : WSEvt)
    (h : evt ∈ wsFull events) :
    wsGap evt ≤ 11 ∧ (isAck evt = true → wsGap evt ≤ 10) := by
  have hfull : wsFull events = wsLoop events 0 0 ++ [WSEvt.close] := rfl
  rw [hfull] at h
  rcases List.mem_append.mp h with hl | hr
  · obtain ⟨h1, h2, h3⟩ := wsLoop_counters events 0 0 (by omega) (by omega) evt hl
    constructor
    · rw [wsGap]; omega
    · intro ha
      have h4 := h3 ha
      rw [wsGap]; omega
  · rw [List.mem_singleton.mp hr]
    exact ⟨by rw [wsGap]; exact Nat.zero_le 11, fun ha => absurd ha (by decide)⟩

/-- Witness for ws_gap_bound at the first send of a one-event session. -/
theorem ws_gap_bound_witness :
    (WSEvt.send (jsonDumps exampleEvent) 1 0 ∈ wsFull [exampleEvent]) ∧
    (wsGap (WSEvt.send (jsonDumps exampleEvent) 1 0) ≤ 11 ∧
      (isAck (WSEvt.send (jsonDumps exampleEvent) 1 0) = true →
        wsGap (WSEvt.send (jsonDumps exampleEvent) 1 0) ≤ 10)) :=
  ⟨by simp [wsFull, generate_ws, wsLoop, ackRun_nil],
    ws_gap_bound [exampleEvent] (WSEvt.send (jsonDumps exampleEvent) 1 0)
      (by simp [wsFull, generate_ws, wsLoop, ackRun_nil])⟩

/-- C3: the handlers take no lock around the broadcast, so the cooperative
scheduler admits a schedule of two concurrent connections in which the
second command is broadcast while the first round is still emitting: two
generation rounds are in flight at once, refuting serialization of rounds.
The schedule is a valid interleaving of the two handler task scripts. -/
theorem dispatch_not_serialized :
    Interleave (taskScript 1 2) (taskScript 2 1) overlapTrace ∧
    RoundsOverlap overlapTrace := by
  constructor
  · have h1 : taskScript 1 2 = [Act.broadcastCmd 1, Act.emit 1 0, Act.emit 1 1] := rfl
    have h2 : taskScript 2 1 = [Act.broadcastCmd 2, Act.emit 2 0] := rfl
    rw [h1, h2]
    show Interleave _ _ [Act.broadcastCmd 1, Act.emit 1 0, Act.broadcastCmd 2,
      Act.emit 2 0, Act.emit 1 1]
    exact .cons_left (.cons_left (.cons_right (.cons_right (.cons_left .nil))))
  · exact ⟨0, 2, 4, 1, 2, 1, by decide, by decide, rfl, rfl, rfl, by decide⟩

/-- C4: when a follower engine call raises, the bare except: pass of the
follower loop produces no log record of the failure or of the command being
processed, and the loop silently resumes waiting on the next broadcast. -/
theorem follower_failure_unlogged (cmd : BTuple) (err : String) :
    (followerIteration (FollowerRound.engineErr cmd err)).log = [] ∧
    (followerIteration (FollowerRound.engineErr cmd err)).continues = true :=
  ⟨rfl, rfl⟩

/-- C8, counterexample to the claim as stated: a follower whose broadcast
receive raises keeps looping — the bare except swallows the failure and the
while True loop re-enters its broadcast wait as if the service were
healthy. -/
theorem follower_broadcast_failure_loops :
    (followerIteration
      (FollowerRound.broadcastErr "NCCL communicator aborted")).continues = true :=
  rfl

/-- C8 as amended: a Broadcast Channel failure has no recovery path — the
leader handler propagates it so the round is aborted for the client, and
the follower discards it without serving any round from it or logging it —
but the follower does keep looping, re-entering its broadcast wait, so only
a full service restart restores health. -/
theorem broadcast_failure_no_recovery (req : ClientRequest) (err : String) :
    leaderDispatch req (some err) = Except.error err ∧
    followerIteration (FollowerRound.broadcastErr err) =
      ⟨none, [], true⟩ :=
  ⟨rfl, rfl⟩

/-- C10: on the WebSocket transport, when the engine yields at most ten
events the session trace is exactly the sends followed by the close, with
recv_tokens never moved — no acknowledgment frame is ever read even if the
client sends none; in any session, acknowledgments are read only once
send_tokens has exceeded ten, and recv_tokens never exceeds
send_tokens. -/
theorem ws_few_tokens_no_ack_reads (events : List TokenEvent) :
    (events.length ≤ 10 →
      wsFull events = sendsOnly events 0 0 ++ [WSEvt.close]) ∧
    (∀ s r, WSEvt.recvAck s r ∈ wsFull events → 11 ≤ s) ∧
    (∀ evt ∈ wsFull events, recvAnn evt ≤ sendAnn evt) := by
  have hfull : wsFull events = wsLoop events 0 0 ++ [WSEvt.close] := rfl
  refine ⟨?_, ?_, ?_⟩
  · intro h
    rw [hfull, wsLoop_small events 0 0 (by omega)]
  · intro s r hm
    rw [hfull] at hm
    rcases List.mem_append.mp hm with hl | hr
    · exact wsLoop_ack_eleven events 0 0 s r hl
    · exact WSEvt.noConfusion (List.mem_singleton.mp hr)
  · intro evt hm
    rw [hfull] at hm
    rcases List.mem_append.mp hm with hl | hr
    · exact (wsLoop_counters events 0 0 (by omega) (by omega) evt hl).1
    · rw [List.mem_singleton.mp hr]
      exact Nat.le_refl 0

/-- Witness for ws_few_tokens_no_ack_reads at a concrete one-event
session. -/
theorem ws_few_tokens_no_ack_reads_witness :
    (([exampleEvent] : List TokenEvent).length ≤ 10) ∧
    wsFull [exampleEvent] = sendsOnly [exampleEvent] 0 0 ++ [WSEvt.close] :=
  ⟨by decide, (ws_few_tokens_no_ack_reads [exampleEvent]).1 (by decide)⟩

end LlamaWeb
